import Mathlib

/-!
Shallow embedding of the RTerm terminal-emulator core: the ANSI escape-sequence
parser (`src/term/ansi.rs`) and the terminal grid model (`src/term/grid.rs`),
with the configuration constants they use (`src/config.rs`).

Modelling conventions:
* Bytes are `Nat` values in `0..=255`; every range test from the Rust `match`
  arms is written with both bounds so the semantics agrees with `u8`.
* The parser's `current_param` field is a Rust `u16`; it is modelled as a `Nat`
  kept below `2 ^ 16` by an explicit `% 65536` at the one arithmetic update
  (release-profile wrapping semantics).
* Colors in the source are `[f32; 4]` constant literals (theme palette,
  default foreground/background) or true-color components divided by `255.0`.
  No claim depends on the numeric values of colors, only on which assignment
  the SGR handler performed, so colors are modelled symbolically by an
  inductive type recording the provenance of the value.  (This equality is
  finer than `f32` equality — some palette rows coincide numerically — which
  is harmless here because no theorem compares colors across constructors.)
* `Vec<Vec<Cell>>` becomes `List (List Cell)`.  Rust's panicking index
  `cells[y][x]` in the read-only accessor `get_cell` is modelled as an
  `Option`-returning lookup (fallible code returns `Option`); in the mutating
  operations every index written by the source loops is in range whenever the
  matrix is well-formed (`Grid.wf`), and the loops are written as the
  equivalent index-respecting list transformations.
-/

namespace RTerm

/-- From `src/config.rs`: `pub const SCROLLBACK_LINES: usize = 10_000;`. -/
def SCROLLBACK_LINES : Nat := 10000

/-- Symbolic color value: records which assignment produced it.
`ansi i` stands for `ANSI_COLORS[i]`, `fgDefault`/`bgDefault` for the
configured `FG_COLOR`/`BG_COLOR`, and `rgb r g b` for the true-color value
built from three `u16` parameters (each divided by `255.0` in the source). -/
inductive Color where
  | ansi : Nat → Color
  | fgDefault : Color
  | bgDefault : Color
  | rgb : Nat → Nat → Nat → Color
deriving DecidableEq, Repr

/-- From `src/config.rs`: the configured default foreground color. -/
def FG_COLOR : Color := Color.fgDefault

/-- From `src/config.rs`: the configured default background color. -/
def BG_COLOR : Color := Color.bgDefault

/-- From `src/config.rs`: the 16-entry ANSI palette, indexed symbolically. -/
def ANSI_COLORS (i : Nat) : Color := Color.ansi i

/-- `CellStyle` from `src/term/grid.rs`. -/
structure CellStyle where
  fg : Color
  bg : Color
  bold : Bool
  italic : Bool
  underline : Bool
  inverse : Bool
deriving DecidableEq, Repr

/-- `impl Default for CellStyle`. -/
def CellStyle.default : CellStyle :=
  { fg := FG_COLOR, bg := BG_COLOR,
    bold := false, italic := false, underline := false, inverse := false }

/-- `Cell` from `src/term/grid.rs`. -/
structure Cell where
  c : Char
  style : CellStyle
  dirty : Bool
deriving DecidableEq, Repr

/-- `impl Default for Cell`: a space character, default style, dirty. -/
def Cell.default : Cell :=
  { c := Char.ofNat 32, style := CellStyle.default, dirty := true }

/-- `Grid` from `src/term/grid.rs`. -/
structure Grid where
  cells : List (List Cell)
  scrollback : List (List Cell)
  cols : Nat
  rows : Nat
  cursor_x : Nat
  cursor_y : Nat
  current_style : CellStyle
  dirty : Bool
deriving DecidableEq, Repr

/-- `Grid::new(cols, rows)`. -/
def Grid.new (cols rows : Nat) : Grid :=
  { cells := List.replicate rows (List.replicate cols Cell.default),
    scrollback := [],
    cols := cols, rows := rows,
    cursor_x := 0, cursor_y := 0,
    current_style := CellStyle.default,
    dirty := true }

/-- Helper: write one cell of the matrix, `cells[y][x] = c`. -/
def setCell (cells : List (List Cell)) (y x : Nat) (c : Cell) : List (List Cell) :=
  cells.set y ((cells.getD y []).set x c)

/-- `Grid::scroll_up` (private, called by `newline`): move row 0 into the
scrollback, evicting the oldest scrollback entry first when at capacity, and
append a fresh default row at the bottom. -/
def Grid.scroll_up (g : Grid) : Grid :=
  let sb := if g.scrollback.length ≥ SCROLLBACK_LINES then g.scrollback.drop 1 else g.scrollback
  { g with
    scrollback := sb ++ [g.cells.headD []],
    cells := g.cells.drop 1 ++ [List.replicate g.cols Cell.default],
    dirty := true }

/-- `Grid::newline`. -/
def Grid.newline (g : Grid) : Grid :=
  let g1 := { g with cursor_x := 0 }
  if g1.cursor_y + 1 ≥ g1.rows then g1.scroll_up
  else { g1 with cursor_y := g1.cursor_y + 1 }

/-- `Grid::carriage_return`. -/
def Grid.carriage_return (g : Grid) : Grid :=
  { g with cursor_x := 0 }

/-- `Grid::write_char`. -/
def Grid.write_char (g : Grid) (c : Char) : Grid :=
  let g1 := if g.cursor_x ≥ g.cols then g.newline else g
  if g1.cursor_y < g1.rows ∧ g1.cursor_x < g1.cols then
    { g1 with
      cells := setCell g1.cells g1.cursor_y g1.cursor_x
        { c := c, style := g1.current_style, dirty := true },
      cursor_x := g1.cursor_x + 1,
      dirty := true }
  else g1

/-- `Grid::backspace`. -/
def Grid.backspace (g : Grid) : Grid :=
  if g.cursor_x > 0 then
    { g with
      cursor_x := g.cursor_x - 1,
      cells := setCell g.cells g.cursor_y (g.cursor_x - 1) Cell.default,
      dirty := true }
  else g

/-- `Grid::tab`: advance to the next multiple of 8, clamped to `cols - 1`. -/
def Grid.tab (g : Grid) : Grid :=
  { g with cursor_x := min ((g.cursor_x / 8 + 1) * 8) (g.cols - 1) }

/-- `Grid::clear`: every visible cell to default, cursor home. -/
def Grid.clear (g : Grid) : Grid :=
  { g with
    cells := g.cells.map (fun row => row.map (fun _ => Cell.default)),
    cursor_x := 0, cursor_y := 0, dirty := true }

/-- `Grid::clear_to_end_of_line`: defaults indices `cursor_x ≤ x < cols` of
the cursor row (under `Grid.wf` exactly the source loop's writes). -/
def Grid.clear_to_end_of_line (g : Grid) : Grid :=
  { g with
    cells := g.cells.set g.cursor_y
      ((g.cells.getD g.cursor_y []).mapIdx
        (fun x cell => if g.cursor_x ≤ x ∧ x < g.cols then Cell.default else cell)),
    dirty := true }

/-- `Grid::clear_to_end_of_screen`. -/
def Grid.clear_to_end_of_screen (g : Grid) : Grid :=
  let g1 := g.clear_to_end_of_line
  { g1 with
    cells := g1.cells.mapIdx
      (fun y row => if g.cursor_y + 1 ≤ y ∧ y < g.rows
        then row.map (fun _ => Cell.default) else row),
    dirty := true }

/-- `Grid::clear_line(y)`. -/
def Grid.clear_line (g : Grid) (y : Nat) : Grid :=
  if y < g.rows then
    { g with
      cells := g.cells.set y ((g.cells.getD y []).map (fun _ => Cell.default)),
      dirty := true }
  else g

/-- `Grid::move_cursor(x, y)`: clamp with `saturating_sub` semantics. -/
def Grid.move_cursor (g : Grid) (x y : Nat) : Grid :=
  { g with
    cursor_x := min x (g.cols - 1),
    cursor_y := min y (g.rows - 1) }

/-- `Grid::move_cursor_relative(dx, dy)`: floor the signed sums at 0, then
clamp as `move_cursor` does. -/
def Grid.move_cursor_relative (g : Grid) (dx dy : Int) : Grid :=
  g.move_cursor ((g.cursor_x + dx).toNat) ((g.cursor_y + dy).toNat)

/-- `Grid::get_cell(x, y)`: the source reads `&self.cells[y][x]`, which
panics when an index is out of range; modelled as an `Option` lookup that is
`some` exactly on the indices the source read succeeds on. -/
def Grid.get_cell (g : Grid) (x y : Nat) : Option Cell :=
  match g.cells.get? y with
  | some row => row.get? x
  | none => none

/-- `Grid::resize(cols, rows)`: fresh default matrix, copy of the overlapping
top-left region (the source loops run `y < rows.min(self.rows)`,
`x < cols.min(self.cols)`), dimensions updated, cursor re-clamped,
scrollback untouched. -/
def Grid.resize (g : Grid) (cols rows : Nat) : Grid :=
  { g with
    cells := (List.range rows).map (fun y =>
      (List.range cols).map (fun x =>
        if y < min rows g.rows ∧ x < min cols g.cols then
          (g.cells.getD y []).getD x Cell.default
        else Cell.default)),
    cols := cols, rows := rows,
    cursor_x := min g.cursor_x (cols - 1),
    cursor_y := min g.cursor_y (rows - 1),
    dirty := true }

/-- `Grid::mark_clean`. -/
def Grid.mark_clean (g : Grid) : Grid :=
  { g with
    dirty := false,
    cells := g.cells.map (fun row => row.map (fun cell => { cell with dirty := false })) }

/-- Well-formedness of the matrix: exactly `rows` rows of `cols` cells each.
This is the representation invariant the Rust code maintains (`vec![vec![..]]`
allocation, row-by-row replacement) and relies on for its raw indexing. -/
def Grid.wf (g : Grid) : Prop :=
  g.cells.length = g.rows ∧ ∀ r ∈ g.cells, r.length = g.cols

instance (g : Grid) : Decidable g.wf := by
  unfold Grid.wf; infer_instance

/-- Cursor strictly inside the matrix bounds. -/
def Grid.cursorInBounds (g : Grid) : Prop :=
  g.cursor_x < g.cols ∧ g.cursor_y < g.rows

instance (g : Grid) : Decidable g.cursorInBounds := by
  unfold Grid.cursorInBounds; infer_instance

/-- Parser states (`enum State` in `src/term/ansi.rs`). -/
inductive PState where
  | Ground
  | Escape
  | Csi
  | CsiParam
  | Osc
deriving DecidableEq, Repr

/-- `AnsiParser` from `src/term/ansi.rs`.  `params` holds committed `u16`
parameters, `current_param` the in-progress one (kept below `2 ^ 16` by the
explicit modulus at its update), `intermediate` the collected `?`, `>`, `!`
bytes. -/
structure AnsiParser where
  state : PState
  params : List Nat
  current_param : Nat
  intermediate : List Nat
deriving DecidableEq, Repr

/-- `AnsiParser::new`. -/
def AnsiParser.new : AnsiParser :=
  { state := PState.Ground, params := [], current_param := 0, intermediate := [] }

/-- `AnsiParser::get_param(idx, default)`:
`self.params.get(idx).copied().filter(|&v| v > 0).unwrap_or(default)`. -/
def AnsiParser.get_param (p : AnsiParser) (idx default : Nat) : Nat :=
  match p.params.get? idx with
  | some v => if v > 0 then v else default
  | none => default

/-- `AnsiParser::reset`: back to `Ground`, all accumulation cleared. -/
def AnsiParser.reset (_p : AnsiParser) : AnsiParser :=
  { state := PState.Ground, params := [], current_param := 0, intermediate := [] }

/-- The SGR scan of `AnsiParser::process_sgr`: walk the parameter list left to
right, mutating only the style; `38`/`48` consume extra parameters exactly as
the source's manual `i += 2` / `i += 4` skips do.  The source's `while` loop
advances `i` by at least one each iteration, so `params.length` steps of fuel
reproduce it exactly. -/
def sgrLoop (params : List Nat) : Nat → Nat → CellStyle → CellStyle
  | 0, _, st => st
  | fuel + 1, i, st =>
    if i < params.length then
      let v := params.getD i 0
      if v = 0 then sgrLoop params fuel (i + 1) CellStyle.default
      else if v = 1 then sgrLoop params fuel (i + 1) { st with bold := true }
      else if v = 3 then sgrLoop params fuel (i + 1) { st with italic := true }
      else if v = 4 then sgrLoop params fuel (i + 1) { st with underline := true }
      else if v = 7 then sgrLoop params fuel (i + 1) { st with inverse := true }
      else if v = 22 then sgrLoop params fuel (i + 1) { st with bold := false }
      else if v = 23 then sgrLoop params fuel (i + 1) { st with italic := false }
      else if v = 24 then sgrLoop params fuel (i + 1) { st with underline := false }
      else if v = 27 then sgrLoop params fuel (i + 1) { st with inverse := false }
      else if 30 ≤ v ∧ v ≤ 37 then
        sgrLoop params fuel (i + 1) { st with fg := ANSI_COLORS (v - 30) }
      else if v = 38 then
        if i + 2 < params.length ∧ params.getD (i + 1) 0 = 5 then
          let color_idx := params.getD (i + 2) 0
          let st1 := if color_idx < 16 then { st with fg := ANSI_COLORS color_idx } else st
          sgrLoop params fuel (i + 3) st1
        else if i + 4 < params.length ∧ params.getD (i + 1) 0 = 2 then
          sgrLoop params fuel (i + 5)
            { st with fg := Color.rgb (params.getD (i + 2) 0) (params.getD (i + 3) 0) (params.getD (i + 4) 0) }
        else sgrLoop params fuel (i + 1) st
      else if v = 39 then sgrLoop params fuel (i + 1) { st with fg := FG_COLOR }
      else if 40 ≤ v ∧ v ≤ 47 then
        sgrLoop params fuel (i + 1) { st with bg := ANSI_COLORS (v - 40) }
      else if v = 48 then
        if i + 2 < params.length ∧ params.getD (i + 1) 0 = 5 then
          let color_idx := params.getD (i + 2) 0
          let st1 := if color_idx < 16 then { st with bg := ANSI_COLORS color_idx } else st
          sgrLoop params fuel (i + 3) st1
        else if i + 4 < params.length ∧ params.getD (i + 1) 0 = 2 then
          sgrLoop params fuel (i + 5)
            { st with bg := Color.rgb (params.getD (i + 2) 0) (params.getD (i + 3) 0) (params.getD (i + 4) 0) }
        else sgrLoop params fuel (i + 1) st
      else if v = 49 then sgrLoop params fuel (i + 1) { st with bg := BG_COLOR }
      else if 90 ≤ v ∧ v ≤ 97 then
        sgrLoop params fuel (i + 1) { st with fg := ANSI_COLORS (v - 90 + 8) }
      else if 100 ≤ v ∧ v ≤ 107 then
        sgrLoop params fuel (i + 1) { st with bg := ANSI_COLORS (v - 100 + 8) }
      else sgrLoop params fuel (i + 1) st
    else st

/-- `AnsiParser::process_sgr`: empty parameter list resets the pen; otherwise
run the scan.  Every statement of the source writes only
`grid.current_style`, so the function is a pure style transformer. -/
def process_sgr (params : List Nat) (st : CellStyle) : CellStyle :=
  if params.isEmpty then CellStyle.default
  else sgrLoop params params.length 0 st

/-- `AnsiParser::ground`. -/
def AnsiParser.ground (p : AnsiParser) (b : Nat) (g : Grid) : AnsiParser × Grid :=
  if b = 0x1b then ({ p with state := PState.Escape }, g)
  else if b = 0x07 then (p, g)
  else if b = 0x08 then (p, g.backspace)
  else if b = 0x09 then (p, g.tab)
  else if b = 0x0a ∨ b = 0x0b ∨ b = 0x0c then (p, g.newline)
  else if b = 0x0d then (p, g.carriage_return)
  else if 0x20 ≤ b ∧ b ≤ 0x7e then (p, g.write_char (Char.ofNat b))
  else if 0xc0 ≤ b ∧ b ≤ 0xff then (p, g.write_char (Char.ofNat 63))
  else (p, g)

/-- `AnsiParser::escape`. -/
def AnsiParser.escape (p : AnsiParser) (b : Nat) (g : Grid) : AnsiParser × Grid :=
  if b = 0x5b then
    ({ p with state := PState.Csi, params := [], current_param := 0, intermediate := [] }, g)
  else if b = 0x5d then ({ p with state := PState.Osc }, g)
  else if b = 0x63 then
    ({ p with state := PState.Ground }, { g.clear with current_style := CellStyle.default })
  else if b = 0x44 then ({ p with state := PState.Ground }, g.newline)
  else if b = 0x45 then ({ p with state := PState.Ground }, g.newline.carriage_return)
  else if b = 0x4d then
    ({ p with state := PState.Ground },
      if g.cursor_y > 0 then { g with cursor_y := g.cursor_y - 1 } else g)
  else ({ p with state := PState.Ground }, g)

/-- `AnsiParser::csi` (handles both `Csi` and `CsiParam`).  Note that the
`A`/`B`/`C`/`D` arms call `get_param` without first pushing `current_param`
onto `params`, exactly as the source does; `H`/`f`, `J`, `K` and `m` do push
it first. -/
def AnsiParser.csi (p : AnsiParser) (b : Nat) (g : Grid) : AnsiParser × Grid :=
  if 0x30 ≤ b ∧ b ≤ 0x39 then
    ({ p with
        state := PState.CsiParam,
        current_param := (p.current_param * 10 + (b - 0x30)) % 65536 }, g)
  else if b = 0x3b then
    ({ p with params := p.params ++ [p.current_param], current_param := 0 }, g)
  else if b = 0x3f ∨ b = 0x3e ∨ b = 0x21 then
    ({ p with intermediate := p.intermediate ++ [b] }, g)
  else if b = 0x41 then
    (p.reset, g.move_cursor_relative 0 (-(p.get_param 0 1 : Int)))
  else if b = 0x42 then
    (p.reset, g.move_cursor_relative 0 (p.get_param 0 1 : Int))
  else if b = 0x43 then
    (p.reset, g.move_cursor_relative (p.get_param 0 1 : Int) 0)
  else if b = 0x44 then
    (p.reset, g.move_cursor_relative (-(p.get_param 0 1 : Int)) 0)
  else if b = 0x48 ∨ b = 0x66 then
    let p1 := { p with params := p.params ++ [p.current_param] }
    (p1.reset, g.move_cursor (p1.get_param 1 1 - 1) (p1.get_param 0 1 - 1))
  else if b = 0x4a then
    let p1 := { p with params := p.params ++ [p.current_param] }
    let n := p1.get_param 0 0
    (p1.reset,
      if n = 0 then g.clear_to_end_of_screen
      else if n = 1 then g
      else if n = 2 ∨ n = 3 then g.clear
      else g)
  else if b = 0x4b then
    let p1 := { p with params := p.params ++ [p.current_param] }
    let n := p1.get_param 0 0
    (p1.reset,
      if n = 0 then g.clear_to_end_of_line
      else if n = 1 then g
      else if n = 2 then g.clear_line g.cursor_y
      else g)
  else if b = 0x6d then
    let p1 := { p with params := p.params ++ [p.current_param] }
    (p1.reset, { g with current_style := process_sgr p1.params g.current_style })
  else if b = 0x72 ∨ b = 0x68 ∨ b = 0x6c ∨ b = 0x63 ∨ b = 0x6e then
    (p.reset, g)
  else
    (p.reset, g)

/-- `AnsiParser::osc`: discard content until BEL or ESC. -/
def AnsiParser.osc (p : AnsiParser) (b : Nat) (g : Grid) : AnsiParser × Grid :=
  if b = 0x07 ∨ b = 0x1b then ({ p with state := PState.Ground }, g)
  else (p, g)

/-- `AnsiParser::process_byte`: dispatch on the current state. -/
def AnsiParser.process_byte (p : AnsiParser) (b : Nat) (g : Grid) : AnsiParser × Grid :=
  match p.state with
  | PState.Ground => p.ground b g
  | PState.Escape => p.escape b g
  | PState.Csi => p.csi b g
  | PState.CsiParam => p.csi b g
  | PState.Osc => p.osc b g

/-- `AnsiParser::process`: fold `process_byte` over the byte slice. -/
def AnsiParser.process (p : AnsiParser) (data : List Nat) (g : Grid) : AnsiParser × Grid :=
  data.foldl (fun pg b => pg.1.process_byte b pg.2) (p, g)

/-- One public `Grid` mutation, for quantifying over arbitrary sequences of
operations (`scroll_up` is private in the source but reachable via `newline`;
it is included so sequences of direct scrolls are covered too). -/
inductive GridOp where
  | write_char : Char → GridOp
  | newline : GridOp
  | carriage_return : GridOp
  | backspace : GridOp
  | tab : GridOp
  | clear : GridOp
  | clear_to_end_of_line : GridOp
  | clear_to_end_of_screen : GridOp
  | clear_line : Nat → GridOp
  | move_cursor : Nat → Nat → GridOp
  | move_cursor_relative : Int → Int → GridOp
  | resize : Nat → Nat → GridOp
  | scroll_up : GridOp

/-- Apply one `GridOp`. -/
def GridOp.apply : GridOp → Grid → Grid
  | GridOp.write_char c, g => g.write_char c
  | GridOp.newline, g => g.newline
  | GridOp.carriage_return, g => g.carriage_return
  | GridOp.backspace, g => g.backspace
  | GridOp.tab, g => g.tab
  | GridOp.clear, g => g.clear
  | GridOp.clear_to_end_of_line, g => g.clear_to_end_of_line
  | GridOp.clear_to_end_of_screen, g => g.clear_to_end_of_screen
  | GridOp.clear_line y, g => g.clear_line y
  | GridOp.move_cursor x y, g => g.move_cursor x y
  | GridOp.move_cursor_relative dx dy, g => g.move_cursor_relative dx dy
  | GridOp.resize c r, g => g.resize c r
  | GridOp.scroll_up, g => g.scroll_up

/-- Apply a sequence of `Grid` operations in order. -/
def applyOps (ops : List GridOp) (g : Grid) : Grid :=
  ops.foldl (fun g op => op.apply g) g

/-- Bytes a CSI sequence may accumulate before its final byte: decimal
digits, the parameter separator `;`, and the intermediates `?`, `>`, `!`. -/
def csiAccByte (b : Nat) : Prop :=
  (0x30 ≤ b ∧ b ≤ 0x39) ∨ b = 0x3b ∨ b = 0x3f ∨ b = 0x3e ∨ b = 0x21

instance : DecidablePred csiAccByte := fun b => by
  unfold csiAccByte; infer_instance

/-- The parser state right after `ESC [`: state `Csi` with all accumulation
fields cleared (the `[` arm of `AnsiParser::escape`). -/
def csiStart (p : AnsiParser) : AnsiParser :=
  { p with state := PState.Csi, params := [], current_param := 0, intermediate := [] }

/-- A concrete non-fresh grid: the bytes `H`, `i` written into a 3 × 2 grid. -/
def gridHi : Grid := (AnsiParser.new.process [0x48, 0x69] (Grid.new 3 2)).2

/-- A concrete grid whose scrollback is at capacity. -/
def gridFullScrollback : Grid :=
  { Grid.new 1 1 with scrollback := List.replicate SCROLLBACK_LINES [] }

/-- A concrete parser mid-CSI whose in-progress parameter is `6553`; one more
digit `6` makes the accumulated value `65536`, which wraps to `0`. -/
def parserAt6553 : AnsiParser :=
  { state := PState.CsiParam, params := [], current_param := 6553, intermediate := [] }

/-- Claim C2: processing a byte sequence split at any boundary across two
`process` calls yields exactly the same parser state and grid as processing
it in one call, for every split, every initial parser state and every grid. -/
theorem c2_process_resumable (a b : List Nat) (p : AnsiParser) (g : Grid) :
    p.process (a ++ b) g = (p.process a g).1.process b (p.process a g).2 := by
  simp [AnsiParser.process, List.foldl_append]

/-- Claim C1, evaluation at the failing input: the claim predicts that
`ESC [ 3 A` moves the cursor from row 2 to row 0 of a 1 × 3 grid, because the
final byte is supposed to commit the in-progress parameter `3` before
dispatch.  The code's `A`/`B`/`C`/`D` arms never push `current_param` into
`params`, so `get_param(0, 1)` reads an empty list and returns the default 1:
the cursor lands on row 1. -/
theorem c1_csi_a_ignores_inline_param :
    (AnsiParser.new.process [0x1b, 0x5b, 0x33, 0x41]
        { Grid.new 1 3 with cursor_y := 2 }).2.cursor_y = 1 := by
  decide

/-- Claim C10: a digit byte received in state `Csi` or `CsiParam` updates the
in-progress `u16` parameter to `current_param * 10 + digit` modulo `2 ^ 16`,
stays in `CsiParam`, and leaves everything else (including the grid) intact:
overflow wraps, it is never saturated, rejected, or treated as an abort. -/
theorem c10_digit_accumulates_mod_u16 (p : AnsiParser) (g : Grid) (b : Nat)
    (hs : p.state = PState.Csi ∨ p.state = PState.CsiParam)
    (hb : 0x30 ≤ b ∧ b ≤ 0x39) :
    p.process_byte b g =
      ({ p with
          state := PState.CsiParam,
          current_param := (p.current_param * 10 + (b - 0x30)) % 65536 }, g) := by
  rcases hs with hs | hs <;>
    simp [AnsiParser.process_byte, hs, AnsiParser.csi, hb.1, hb.2]

/-- Witness for C10 at a concrete wrap-around: the digit `6` after an
accumulated `6553` yields `65536 % 65536 = 0`. -/
theorem c10_digit_accumulates_mod_u16_witness :
    parserAt6553.process_byte 0x36 (Grid.new 1 1) =
      ({ parserAt6553 with state := PState.CsiParam, current_param := 0 },
        Grid.new 1 1) :=
  c10_digit_accumulates_mod_u16 parserAt6553 (Grid.new 1 1) 0x36 (Or.inr rfl) (by decide)

/-- Counterexample to claim C3 as stated: `Grid.new 1 1` satisfies every
hypothesis (`cols = rows = 1`, cursor at the origin), yet after the single
public mutation `write_char` the cursor no longer satisfies
`cursor_x < cols` — the write leaves the transient `cursor_x = cols = 1`. -/
theorem c3_write_char_breaks_strict_bound :
    (Grid.new 1 1).cursorInBounds ∧
      ¬ ((Grid.new 1 1).write_char (Char.ofNat 97)).cursorInBounds := by
  decide

/-- Counterexample to claim C4 as stated: on a 1 × 1 grid (`cols ≥ 1`,
`rows ≥ 1`), `get_cell 1 0` does not return a cell — the source's
`&self.cells[y][x]` panics there, modelled as `none`. -/
theorem c4_get_cell_out_of_range_fails :
    1 ≤ (Grid.new 1 1).cols ∧ 1 ≤ (Grid.new 1 1).rows ∧
      (Grid.new 1 1).get_cell 1 0 = none := by
  decide

/-- Counterexample to claim C7 as stated: after the prior byte sequence
`[ESC]` the parser sits in `Escape`; the subsequent `ESC c` then resolves as
"abandon" (second `ESC`) followed by a literal `c` written in `Ground`, so
the grid ends with the cursor at column 1, not in the freshly-constructed
state. -/
theorem c7_esc_c_after_dangling_escape :
    ((AnsiParser.new.process [0x1b] (Grid.new 2 2)).1.process [0x1b, 0x63]
        (AnsiParser.new.process [0x1b] (Grid.new 2 2)).2).2.cursor_x = 1 := by
  decide

/-- Claim C6: processing the four bytes `ESC [ 0 A` from `Ground` moves the
cursor up by exactly one row (clamped at row 0, i.e. truncated subtraction),
not by zero, and leaves the column unchanged: the explicit parameter value 0
falls back to the default 1. -/
theorem c6_zero_param_moves_up_one (p : AnsiParser) (g : Grid)
    (hs : p.state = PState.Ground) (hx : g.cursor_x < g.cols)
    (hy : g.cursor_y < g.rows) :
    (p.process [0x1b, 0x5b, 0x30, 0x41] g).2.cursor_y = g.cursor_y - 1 ∧
    (p.process [0x1b, 0x5b, 0x30, 0x41] g).2.cursor_x = g.cursor_x := by
  simp [AnsiParser.process, AnsiParser.process_byte, hs, AnsiParser.ground,
    AnsiParser.escape, AnsiParser.csi, AnsiParser.get_param, AnsiParser.reset,
    Grid.move_cursor_relative, Grid.move_cursor]
  omega

/-- Witness for C6: on a 2 × 3 grid with the cursor on row 2, `ESC [ 0 A`
leaves the cursor on row 1, column 0. -/
theorem c6_zero_param_moves_up_one_witness :
    (AnsiParser.new.process [0x1b, 0x5b, 0x30, 0x41]
        { Grid.new 2 3 with cursor_y := 2 }).2.cursor_y =
      ({ Grid.new 2 3 with cursor_y := 2 } : Grid).cursor_y - 1 ∧
    (AnsiParser.new.process [0x1b, 0x5b, 0x30, 0x41]
        { Grid.new 2 3 with cursor_y := 2 }).2.cursor_x =
      ({ Grid.new 2 3 with cursor_y := 2 } : Grid).cursor_x :=
  c6_zero_param_moves_up_one AnsiParser.new _ rfl (by decide) (by decide)

/-- Claim C3, amended: after any single public `Grid` mutation on a grid with
the cursor in bounds (and target dimensions at least 1 for `resize`), the
cursor again satisfies `cursor_y < rows`, and `cursor_x < cols` for every
operation except `write_char`, which may leave the transient wrap position
`cursor_x = cols` (it guarantees only `cursor_x ≤ cols`). -/
theorem c3_cursor_bounds_after_mutation (g : Grid) (c : Char) (x y : Nat)
    (dx dy : Int) (cols2 rows2 : Nat)
    (hx : g.cursor_x < g.cols) (hy : g.cursor_y < g.rows)
    (hc2 : 1 ≤ cols2) (hr2 : 1 ≤ rows2) :
    ((g.write_char c).cursor_x ≤ (g.write_char c).cols ∧
      (g.write_char c).cursor_y < (g.write_char c).rows) ∧
    g.newline.cursorInBounds ∧
    g.carriage_return.cursorInBounds ∧
    g.backspace.cursorInBounds ∧
    g.tab.cursorInBounds ∧
    g.clear.cursorInBounds ∧
    g.clear_to_end_of_line.cursorInBounds ∧
    g.clear_to_end_of_screen.cursorInBounds ∧
    (g.clear_line y).cursorInBounds ∧
    (g.move_cursor x y).cursorInBounds ∧
    (g.move_cursor_relative dx dy).cursorInBounds ∧
    (g.resize cols2 rows2).cursorInBounds := by
  refine ⟨?_, ?_, ?_, ?_, ?_, ?_, ?_, ?_, ?_, ?_, ?_, ?_⟩ <;>
  · dsimp only [Grid.cursorInBounds, Grid.write_char, Grid.newline,
      Grid.scroll_up, Grid.carriage_return, Grid.backspace, Grid.tab,
      Grid.clear, Grid.clear_to_end_of_line, Grid.clear_to_end_of_screen,
      Grid.clear_line, Grid.move_cursor, Grid.move_cursor_relative,
      Grid.resize]
    repeat' split
    all_goals first
      | omega
      | (dsimp only; omega)

/-- Witness for amended C3 on a 3 × 2 grid: `newline` and an out-of-range
`move_cursor` both leave the cursor strictly inside bounds. -/
theorem c3_cursor_bounds_after_mutation_witness :
    (Grid.new 3 2).newline.cursorInBounds ∧
      ((Grid.new 3 2).move_cursor 7 9).cursorInBounds := by
  have h := c3_cursor_bounds_after_mutation (Grid.new 3 2) (Char.ofNat 97) 7 9
    2 (-5) 4 3 (by decide) (by decide) (by decide) (by decide)
  exact ⟨h.2.1, h.2.2.2.2.2.2.2.2.2.1⟩

/-- Helper: a list lookup succeeds exactly below the length. -/
theorem get?_isSome_iff {α : Type} (l : List α) (n : Nat) :
    (l.get? n).isSome ↔ n < l.length := by
  constructor
  · intro h
    cases hg : l.get? n with
    | none => rw [hg] at h; simp at h
    | some a =>
      obtain ⟨hlt, -⟩ := List.get?_eq_some.mp hg
      exact hlt
  · intro h
    rw [List.get?_eq_get h]
    rfl

/-- Helper: `getD` below the length is the plain lookup. -/
theorem getD_of_lt {α : Type} (l : List α) (n : Nat) (d : α) (h : n < l.length) :
    l.getD n d = l.get ⟨n, h⟩ := by
  rw [List.getD_eq_get?, List.get?_eq_get h]
  rfl

/-- Claim C4, amended: the mutating `Grid` operations clamp or guard
out-of-range indices (`move_cursor` clamps into bounds for all arguments,
`clear_line` with an out-of-range row is a no-op), but the read accessor
`get_cell` does not clamp: it returns a cell exactly when `x < cols` and
`y < rows`, and fails (panics in the source, `none` in the model) otherwise. -/
theorem c4_mutations_clamp_but_get_cell_is_partial (g : Grid) (x y : Nat)
    (hc : 1 ≤ g.cols) (hr : 1 ≤ g.rows) (hwf : g.wf) :
    ((g.get_cell x y).isSome ↔ x < g.cols ∧ y < g.rows) ∧
    (g.rows ≤ y → g.clear_line y = g) ∧
    (g.move_cursor x y).cursorInBounds := by
  refine ⟨?_, ?_, ?_⟩
  · dsimp only [Grid.get_cell]
    cases hg : g.cells.get? y with
    | none =>
      have hlen : g.cells.length ≤ y := List.get?_eq_none.mp hg
      rw [hwf.1] at hlen
      simp only [Option.isSome_none, Bool.false_eq_true, false_iff]
      omega
    | some row =>
      have hy2 : y < g.cells.length := by
        obtain ⟨hlt, -⟩ := List.get?_eq_some.mp hg
        exact hlt
      have hrl : row.length = g.cols := hwf.2 row (List.get?_mem hg)
      rw [get?_isSome_iff, hrl, hwf.1] at *
      constructor
      · intro h
        exact ⟨h, hy2⟩
      · intro h
        exact h.1
  · intro hge
    dsimp only [Grid.clear_line]
    rw [if_neg (by omega)]
  · dsimp only [Grid.cursorInBounds, Grid.move_cursor]
    exact ⟨by omega, by omega⟩

/-- Witness for amended C4 on a 2 × 2 grid with the out-of-range column 5. -/
theorem c4_mutations_clamp_but_get_cell_is_partial_witness :
    (((Grid.new 2 2).get_cell 5 0).isSome ↔
      5 < (Grid.new 2 2).cols ∧ 0 < (Grid.new 2 2).rows) ∧
    ((Grid.new 2 2).rows ≤ 0 → (Grid.new 2 2).clear_line 0 = Grid.new 2 2) ∧
    ((Grid.new 2 2).move_cursor 5 0).cursorInBounds :=
  c4_mutations_clamp_but_get_cell_is_partial (Grid.new 2 2) 5 0
    (by decide) (by decide) (by decide)

/-- Helper: one `scroll_up` keeps the scrollback within capacity. -/
theorem scroll_up_scrollback_le (g : Grid)
    (h : g.scrollback.length ≤ SCROLLBACK_LINES) :
    g.scroll_up.scrollback.length ≤ SCROLLBACK_LINES := by
  dsimp only [Grid.scroll_up]
  rw [List.length_append]
  unfold SCROLLBACK_LINES at *
  split
  · simp only [List.length_drop, List.length_singleton]
    omega
  · simp only [List.length_singleton]
    omega

/-- Helper: every single operation either leaves the scrollback alone or
routes through `scroll_up`. -/
theorem applyOp_scrollback_cases (op : GridOp) (g : Grid) :
    (op.apply g).scrollback = g.scrollback ∨
    (op.apply g).scrollback = g.scroll_up.scrollback := by
  cases op <;>
    dsimp only [GridOp.apply, Grid.write_char, Grid.newline, Grid.scroll_up,
      Grid.carriage_return, Grid.backspace, Grid.tab, Grid.clear,
      Grid.clear_to_end_of_line, Grid.clear_to_end_of_screen, Grid.clear_line,
      Grid.move_cursor, Grid.move_cursor_relative, Grid.resize] <;>
    repeat' split
  all_goals first
    | (left; rfl)
    | (right; rfl)

/-- Helper: any sequence of operations keeps the scrollback within capacity. -/
theorem applyOps_scrollback_le (ops : List GridOp) (g : Grid)
    (h : g.scrollback.length ≤ SCROLLBACK_LINES) :
    (applyOps ops g).scrollback.length ≤ SCROLLBACK_LINES := by
  induction ops generalizing g with
  | nil => exact h
  | cons op t ih =>
    have h1 : (op.apply g).scrollback.length ≤ SCROLLBACK_LINES := by
      rcases applyOp_scrollback_cases op g with hcase | hcase
      · rw [hcase]; exact h
      · rw [hcase]; exact scroll_up_scrollback_le g h
    exact ih (op.apply g) h1

/-- Claim C5: starting from any grid whose scrollback is within the
configured capacity (every constructed grid starts empty), no sequence of
grid operations ever pushes the scrollback beyond `SCROLLBACK_LINES`; and
`scroll_up` appends the evicted visible row 0 at the young end after
discarding the oldest entry (the head) exactly when the buffer is full —
FIFO, oldest-first. -/
theorem c5_scrollback_bounded_fifo (g : Grid) (ops : List GridOp)
    (h : g.scrollback.length ≤ SCROLLBACK_LINES) :
    (applyOps ops g).scrollback.length ≤ SCROLLBACK_LINES ∧
    (∀ g2 : Grid, g2.scroll_up.scrollback =
      (if SCROLLBACK_LINES ≤ g2.scrollback.length
        then g2.scrollback.drop 1 else g2.scrollback) ++ [g2.cells.headD []]) := by
  refine ⟨applyOps_scrollback_le ops g h, ?_⟩
  intro g2
  dsimp only [Grid.scroll_up]

/-- Witness for C5: three newlines on a fresh 2 × 2 grid stay within
capacity, and a `scroll_up` on a grid with a full scrollback drops the head
entry before appending the evicted row. -/
theorem c5_scrollback_bounded_fifo_witness :
    (applyOps [GridOp.newline, GridOp.newline, GridOp.newline]
        (Grid.new 2 2)).scrollback.length ≤ SCROLLBACK_LINES ∧
    gridFullScrollback.scroll_up.scrollback =
      (if SCROLLBACK_LINES ≤ gridFullScrollback.scrollback.length
        then gridFullScrollback.scrollback.drop 1
        else gridFullScrollback.scrollback) ++
        [gridFullScrollback.cells.headD []] := by
  have h := c5_scrollback_bounded_fifo (Grid.new 2 2)
    [GridOp.newline, GridOp.newline, GridOp.newline] (by decide)
  exact ⟨h.1, h.2 gridFullScrollback⟩

/-- Helper: defaulting every cell of a well-formed matrix gives the
freshly-allocated matrix of the same dimensions. -/
theorem map_rows_const_replicate (l : List (List Cell)) (n m : Nat)
    (hl : l.length = n) (hm : ∀ r ∈ l, r.length = m) :
    l.map (fun row => row.map (fun _ => Cell.default)) =
      List.replicate n (List.replicate m Cell.default) := by
  induction l generalizing n with
  | nil => subst hl; rfl
  | cons r t ih =>
    cases n with
    | zero => simp at hl
    | succ k =>
      have h1 : r.map (fun _ => Cell.default) = List.replicate m Cell.default := by
        rw [← hm r (by simp)]
        exact List.map_const' r Cell.default
      have h2 := ih k (by simpa using hl) (fun r2 hr2 => hm r2 (by simp [hr2]))
      simp only [List.map_cons, List.replicate_succ, h1, h2]

/-- Claim C7, amended: provided the parser is in `Ground` state when the two
bytes `ESC c` arrive (in particular when the prior byte sequence left no
escape sequence dangling), the grid afterwards has the freshly-constructed
visible state for its dimensions: the cells of `Grid.new cols rows`, the
cursor at `(0, 0)`, and the default pen. -/
theorem c7_esc_c_resets_from_ground (p : AnsiParser) (g : Grid)
    (hs : p.state = PState.Ground) (hwf : g.wf) :
    (p.process [0x1b, 0x63] g).2.cells = (Grid.new g.cols g.rows).cells ∧
    (p.process [0x1b, 0x63] g).2.cursor_x = 0 ∧
    (p.process [0x1b, 0x63] g).2.cursor_y = 0 ∧
    (p.process [0x1b, 0x63] g).2.current_style = CellStyle.default := by
  have hred : (p.process [0x1b, 0x63] g).2 =
      { g.clear with current_style := CellStyle.default } := by
    simp [AnsiParser.process, AnsiParser.process_byte, hs, AnsiParser.ground,
      AnsiParser.escape]
  rw [hred]
  refine ⟨?_, rfl, rfl, rfl⟩
  dsimp only [Grid.clear, Grid.new]
  exact map_rows_const_replicate g.cells g.rows g.cols hwf.1 hwf.2

/-- Witness for amended C7: after writing `H`, `i` into a 3 × 2 grid,
`ESC c` restores the fresh visible state. -/
theorem c7_esc_c_resets_from_ground_witness :
    (AnsiParser.new.process [0x1b, 0x63] gridHi).2.cells =
      (Grid.new gridHi.cols gridHi.rows).cells ∧
    (AnsiParser.new.process [0x1b, 0x63] gridHi).2.cursor_x = 0 ∧
    (AnsiParser.new.process [0x1b, 0x63] gridHi).2.cursor_y = 0 ∧
    (AnsiParser.new.process [0x1b, 0x63] gridHi).2.current_style = CellStyle.default :=
  c7_esc_c_resets_from_ground AnsiParser.new gridHi rfl (by decide)

/-- Helper: lookup into a mapped range. -/
theorem get?_map_range {α : Type} (f : Nat → α) (n k : Nat) (h : k < n) :
    ((List.range n).map f).get? k = some (f k) := by
  rw [List.get?_map, List.get?_range h]
  rfl

/-- Helper: a resized grid is well-formed for its new dimensions. -/
theorem resize_wf (g : Grid) (c r : Nat) : (g.resize c r).wf := by
  dsimp only [Grid.resize, Grid.wf]
  refine ⟨by simp, ?_⟩
  intro row hrow
  simp only [List.mem_map, List.mem_range] at hrow
  obtain ⟨y, -, rfl⟩ := hrow
  simp

/-- Helper: the cell a resized grid holds at an in-range position. -/
theorem resize_get_cell (g : Grid) (c r x y : Nat) (hx : x < c) (hy : y < r) :
    (g.resize c r).get_cell x y =
      some (if y < min r g.rows ∧ x < min c g.cols
        then (g.cells.getD y []).getD x Cell.default else Cell.default) := by
  dsimp only [Grid.resize, Grid.get_cell]
  rw [get?_map_range _ r y hy]
  dsimp only
  rw [get?_map_range _ c x hx]

/-- Helper: `get_cell` on a well-formed grid at an in-range position. -/
theorem get_cell_of_wf (g : Grid) (x y : Nat) (hwf : g.wf)
    (hx : x < g.cols) (hy : y < g.rows) :
    g.get_cell x y = some ((g.cells.getD y []).getD x Cell.default) := by
  dsimp only [Grid.get_cell]
  have hy2 : y < g.cells.length := by rw [hwf.1]; exact hy
  have hrl : (g.cells.get ⟨y, hy2⟩).length = g.cols :=
    hwf.2 _ (List.get_mem g.cells y hy2)
  have hx2 : x < (g.cells.get ⟨y, hy2⟩).length := by rw [hrl]; exact hx
  rw [List.get?_eq_get hy2]
  dsimp only
  rw [List.get?_eq_get hx2, getD_of_lt g.cells y [] hy2,
    getD_of_lt _ x Cell.default hx2]

/-- Claim C8: `resize(cols2, rows2)` yields a matrix of exactly
`rows2 × cols2` cells, keeping the old cell at every position inside the
overlapping top-left region and the default cell elsewhere; the cursor is
re-clamped into the new bounds and the scrollback is untouched.
Consequently, shrinking and growing back default-fills everything that left
the shrunk bounds (last conjunct). -/
theorem c8_resize_truncates (g : Grid) (cols2 rows2 : Nat)
    (hc2 : 1 ≤ cols2) (hr2 : 1 ≤ rows2) (hwf : g.wf) :
    (g.resize cols2 rows2).cells.length = rows2 ∧
    (∀ row ∈ (g.resize cols2 rows2).cells, row.length = cols2) ∧
    (∀ x y, x < cols2 → y < rows2 →
      (g.resize cols2 rows2).get_cell x y =
        if x < g.cols ∧ y < g.rows then g.get_cell x y else some Cell.default) ∧
    (g.resize cols2 rows2).cursor_x = min g.cursor_x (cols2 - 1) ∧
    (g.resize cols2 rows2).cursor_y = min g.cursor_y (rows2 - 1) ∧
    (g.resize cols2 rows2).cursorInBounds ∧
    (g.resize cols2 rows2).scrollback = g.scrollback ∧
    (g.resize cols2 rows2).cols = cols2 ∧
    (g.resize cols2 rows2).rows = rows2 ∧
    (∀ x y, x < g.cols → y < g.rows → (cols2 ≤ x ∨ rows2 ≤ y) →
      ((g.resize cols2 rows2).resize g.cols g.rows).get_cell x y =
        some Cell.default) := by
  have hwfr := resize_wf g cols2 rows2
  refine ⟨hwfr.1, hwfr.2, ?_, rfl, rfl, ?_, rfl, rfl, rfl, ?_⟩
  · intro x y hx hy
    rw [resize_get_cell g cols2 rows2 x y hx hy]
    by_cases hold : x < g.cols ∧ y < g.rows
    · rw [if_pos hold, get_cell_of_wf g x y hwf hold.1 hold.2,
        if_pos (⟨by omega, by omega⟩ : y < min rows2 g.rows ∧ x < min cols2 g.cols)]
    · rw [if_neg hold, if_neg (by omega)]
  · dsimp only [Grid.cursorInBounds, Grid.resize]
    exact ⟨by omega, by omega⟩
  · intro x y hx hy hout
    rw [resize_get_cell (g.resize cols2 rows2) g.cols g.rows x y hx hy]
    have hrr : (g.resize cols2 rows2).rows = rows2 := rfl
    have hrc : (g.resize cols2 rows2).cols = cols2 := rfl
    rw [hrr, hrc, if_neg (by omega)]

/-- Witness for C8: the grid with `H`, `i` written, shrunk to 2 × 1. -/
theorem c8_resize_truncates_witness :
    (gridHi.resize 2 1).cells.length = 1 ∧
      (gridHi.resize 2 1).scrollback = gridHi.scrollback := by
  have h := c8_resize_truncates gridHi 2 1 (by decide) (by decide) (by decide)
  exact ⟨h.1, h.2.2.2.2.2.2.1⟩

/-- Helper: accumulation bytes (digits, `;`, `?`, `>`, `!`) received in a CSI
state never touch the grid and keep the parser in a CSI state. -/
theorem csi_acc_steps (mid : List Nat) :
    ∀ (p : AnsiParser) (g : Grid),
      (p.state = PState.Csi ∨ p.state = PState.CsiParam) →
      (∀ b ∈ mid, csiAccByte b) →
      ∃ p2, p.process mid g = (p2, g) ∧
        (p2.state = PState.Csi ∨ p2.state = PState.CsiParam) := by
  induction mid with
  | nil =>
    intro p g hs _
    exact ⟨p, rfl, hs⟩
  | cons b t ih =>
    intro p g hs hacc
    have hb : csiAccByte b := hacc b (by simp)
    have ht : ∀ x ∈ t, csiAccByte x := fun x hx => hacc x (by simp [hx])
    have hstep : ∃ p1, p.process_byte b g = (p1, g) ∧
        (p1.state = PState.Csi ∨ p1.state = PState.CsiParam) := by
      have hcsi : p.process_byte b g = p.csi b g := by
        rcases hs with h | h <;> simp [AnsiParser.process_byte, h]
      rw [hcsi]
      unfold AnsiParser.csi
      rcases hb with hdig | h1 | h1 | h1 | h1
      · rw [if_pos hdig]
        exact ⟨_, rfl, Or.inr rfl⟩
      all_goals subst h1
      all_goals simp only [show ¬((0x30:Nat) ≤ 0x3b ∧ (0x3b:Nat) ≤ 0x39) from by decide,
        show ¬((0x30:Nat) ≤ 0x3f ∧ (0x3f:Nat) ≤ 0x39) from by decide,
        show ¬((0x30:Nat) ≤ 0x3e ∧ (0x3e:Nat) ≤ 0x39) from by decide,
        show ¬((0x30:Nat) ≤ 0x21 ∧ (0x21:Nat) ≤ 0x39) from by decide,
        if_false, if_true, reduceIte]
      all_goals exact ⟨_, rfl, hs⟩
    obtain ⟨p1, hp1, hstate1⟩ := hstep
    have hfold : p.process (b :: t) g = p1.process t g := by
      dsimp only [AnsiParser.process]
      rw [List.foldl_cons]
      have hinit : (p, g).1.process_byte b (p, g).2 = (p1, g) := hp1
      rw [hinit]
    rw [hfold]
    exact ih p1 g hstate1 ht

/-- Claim C9: a full SGR sequence — `ESC [`, any run of parameter bytes
(digits, `;`, intermediates), final byte `m` — changes at most the pen
`current_style`: the cell matrix, the scrollback and the cursor position are
exactly what they were; no written cell is restyled. -/
theorem c9_sgr_touches_only_style (p : AnsiParser) (g : Grid) (mid : List Nat)
    (hs : p.state = PState.Ground) (hmid : ∀ b ∈ mid, csiAccByte b) :
    (p.process ([0x1b, 0x5b] ++ mid ++ [0x6d]) g).2.cells = g.cells ∧
    (p.process ([0x1b, 0x5b] ++ mid ++ [0x6d]) g).2.scrollback = g.scrollback ∧
    (p.process ([0x1b, 0x5b] ++ mid ++ [0x6d]) g).2.cursor_x = g.cursor_x ∧
    (p.process ([0x1b, 0x5b] ++ mid ++ [0x6d]) g).2.cursor_y = g.cursor_y := by
  have hsplit : ∀ (l1 l2 : List Nat) (q : AnsiParser) (h : Grid),
      q.process (l1 ++ l2) h = (q.process l1 h).1.process l2 (q.process l1 h).2 := by
    intro l1 l2 q h
    simp [AnsiParser.process, List.foldl_append]
  have h2 : p.process [0x1b, 0x5b] g = (csiStart p, g) := by
    simp [AnsiParser.process, AnsiParser.process_byte, hs, AnsiParser.ground,
      AnsiParser.escape, csiStart]
  obtain ⟨p3, hp3, hst3⟩ := csi_acc_steps mid (csiStart p) g (Or.inl rfl) hmid
  have hall : p.process ([0x1b, 0x5b] ++ mid ++ [0x6d]) g = p3.process [0x6d] g := by
    rw [hsplit ([0x1b, 0x5b] ++ mid) [0x6d] p g, hsplit [0x1b, 0x5b] mid p g, h2]
    dsimp only
    rw [hp3]
  rw [hall]
  have hm : p3.process [0x6d] g = p3.process_byte 0x6d g := rfl
  rw [hm]
  have hcsi : p3.process_byte 0x6d g = p3.csi 0x6d g := by
    rcases hst3 with h | h <;> simp [AnsiParser.process_byte, h]
  rw [hcsi]
  unfold AnsiParser.csi
  norm_num

/-- Witness for C9: the red-foreground sequence `ESC [ 3 1 m` on a fresh
2 × 2 grid leaves cells, scrollback and cursor untouched. -/
theorem c9_sgr_touches_only_style_witness :
    (AnsiParser.new.process ([0x1b, 0x5b] ++ [0x33, 0x31] ++ [0x6d])
        (Grid.new 2 2)).2.cells = (Grid.new 2 2).cells ∧
    (AnsiParser.new.process ([0x1b, 0x5b] ++ [0x33, 0x31] ++ [0x6d])
        (Grid.new 2 2)).2.scrollback = (Grid.new 2 2).scrollback ∧
    (AnsiParser.new.process ([0x1b, 0x5b] ++ [0x33, 0x31] ++ [0x6d])
        (Grid.new 2 2)).2.cursor_x = (Grid.new 2 2).cursor_x ∧
    (AnsiParser.new.process ([0x1b, 0x5b] ++ [0x33, 0x31] ++ [0x6d])
        (Grid.new 2 2)).2.cursor_y = (Grid.new 2 2).cursor_y :=
  c9_sgr_touches_only_style AnsiParser.new (Grid.new 2 2) [0x33, 0x31]
    rfl (by decide)

end RTerm
